import Mathlib

/-!
# Verification of cartographer_ros MapBuilderBridge
Shallow embedding of src/cartographer_ros/cartographer_ros/map_builder_bridge.cc.

The bridge coordinates a SLAM engine (cartographer MapBuilder + SparsePoseGraph,
an external collaborator) and ROS message handling.  We embed the bridge state
machine: the engine bookkeeping the bridge observes (trajectory builder count,
finished trajectories, per-trajectory submaps, pose-graph data), the bridge
fields (options_, expected_sensor_ids_, trajectory_id_, sensor_bridge_), and
each member function as an explicit state transformer producing a result, a new
state and a trace of engine/log events.  Fatal CHECK failures are modelled as
Option.none results.
-/

namespace CartographerRos

/-- A rigid 3D transform (cartographer::transform::Rigid3d): translation plus
rotation, kept as opaque scalar tuples since the bridge only moves them. -/
structure Rigid3d where
  translation : Int × Int × Int
  rotation : Int × Int × Int × Int
deriving DecidableEq, Repr, Inhabited

/-- A middleware pose message (geometry_msgs::Pose). -/
structure GeometryPose where
  position : Int × Int × Int
  orientation : Int × Int × Int × Int
deriving DecidableEq, Repr, Inhabited

/-- ToGeometryMsgPose from msg_conversion (external conversion module):
carries translation/rotation across the wire boundary. -/
def ToGeometryMsgPose (r : Rigid3d) : GeometryPose :=
  { position := r.translation, orientation := r.rotation }

/-- One engine submap as observed by the bridge: GetSubmapList reads only
end_laser_fan_index. -/
structure Submap where
  end_laser_fan_index : Nat
deriving DecidableEq, Repr, Inhabited

/-- One optimized trajectory node as returned by
SparsePoseGraph::GetTrajectoryNodes.  The engine attributes each node to the
trajectory whose ingestion produced it. -/
structure TrajectoryNode where
  node_trajectory_id : Nat
  pose : Rigid3d
deriving DecidableEq, Repr, Inhabited

/-- Pose-graph data owned by the optimizer: per-trajectory global submap
transforms and the flat list of optimized nodes across all trajectories.
RunFinalOptimization replaces this component and nothing else. -/
structure PoseGraphData where
  submapTransformsOf : Nat → List Rigid3d
  trajectoryNodes : List TrajectoryNode

/-- SubmapQuery response proto produced by the engine
(cartographer::mapping::proto::SubmapQuery::Response). -/
structure SubmapQueryProto where
  submap_version : Nat
  cells : List Nat
  width : Nat
  height : Nat
  resolution : Int
  slice_pose : Rigid3d
deriving DecidableEq, Repr, Inhabited

/-- The SLAM engine state observed by the bridge (MapBuilder together with its
SparsePoseGraph).  Trajectory ids are issued densely from 0; finished ids are
recorded; per-trajectory submap storage and the submap-query behaviour are
abstract engine data. -/
structure MapBuilder where
  num_trajectory_builders : Nat
  finished : List Nat
  submapsOf : Nat → List Submap
  graph : PoseGraphData
  engineFailure : Nat → Nat → String
  submapProto : Nat → Nat → SubmapQueryProto

/-- MapBuilder::AddTrajectoryBuilder: allocates the next dense trajectory id. -/
def MapBuilder.AddTrajectoryBuilder (mb : MapBuilder) (_expected_sensor_ids : List String) :
    Nat × MapBuilder :=
  (mb.num_trajectory_builders,
   { mb with num_trajectory_builders := mb.num_trajectory_builders + 1 })

/-- MapBuilder::FinishTrajectory: the engine stops accepting input on the id. -/
def MapBuilder.FinishTrajectory (mb : MapBuilder) (id : Nat) : MapBuilder :=
  { mb with finished := id :: mb.finished }

/-- Modelled from the spec: MapBuilder::SubmapToProto is engine code (the
MapEngineFacade collaborator), not under src/.  Per the spec it yields a
snapshot or an error string: NotFound-style errors for an unknown trajectory or
an out-of-range submap index, otherwise any internal failure string the engine
reports (empty string meaning success). -/
def MapBuilder.SubmapToProto (mb : MapBuilder) (trajectory_id submap_index : Int) :
    String × SubmapQueryProto :=
  if trajectory_id < 0 ∨ (mb.num_trajectory_builders : Int) ≤ trajectory_id then
    ("Requested submap from unknown trajectory.", default)
  else if submap_index < 0 ∨ ((mb.submapsOf trajectory_id.toNat).length : Int) ≤ submap_index then
    ("Requested submap index out of range.", default)
  else
    (mb.engineFailure trajectory_id.toNat submap_index.toNat,
     mb.submapProto trajectory_id.toNat submap_index.toNat)

/-- Node options the bridge reads (options_). -/
structure NodeOptions where
  map_frame : String
deriving DecidableEq, Repr, Inhabited

/-- The bridge state: options_, expected_sensor_ids_, the engine, the current
trajectory_id_, and the trajectory the owned SensorBridge (sensor_bridge_)
forwards ingested samples to. -/
structure BridgeState where
  options : NodeOptions
  expected_sensor_ids : List String
  mb : MapBuilder
  trajectory_id : Nat
  sensor_bridge_traj : Nat

/-- Log levels of glog statements in the bridge. -/
inductive LogLevel
  | info
  | warning
  | error
deriving DecidableEq, Repr

/-- Observable engine calls and log statements issued by a bridge operation,
in program order. -/
inductive Event
  | log (lvl : LogLevel) (msg : String)
  | addTrajectoryBuilder (id : Nat)
  | bindSensorBridge (id : Nat)
  | finishTrajectoryCall (id : Nat)
  | runFinalOptimization
  | submapToProtoCall (trajectory_id submap_index : Int)
  | getSubmaps (id : Nat)
  | getSubmapTransforms (id : Nat)
  | getTrajectoryNodes
  | writeAssets (num_nodes : Nat) (stem : String)
deriving DecidableEq, Repr

/-- Events that mutate session or engine trajectory state (trajectory creation,
ingest-adapter rebinding, trajectory finalization, optimization). -/
def Event.mutates : Event → Bool
  | .addTrajectoryBuilder _ => true
  | .bindSensorBridge _ => true
  | .finishTrajectoryCall _ => true
  | .runFinalOptimization => true
  | _ => false

/-- MapBuilderBridge constructor (lines 26-38): allocate the first trajectory
and bind a SensorBridge to it. -/
def BridgeState.construct (options : NodeOptions) (expected_sensor_ids : List String)
    (mb0 : MapBuilder) : BridgeState :=
  let p := mb0.AddTrajectoryBuilder expected_sensor_ids
  { options := options, expected_sensor_ids := expected_sensor_ids,
    mb := p.2, trajectory_id := p.1, sensor_bridge_traj := p.1 }

/-- MapBuilderBridge destructor (lines 40-42): finish the current trajectory on
the engine before the bridge object goes away. -/
def BridgeState.destruct (b : BridgeState) : MapBuilder × List Event :=
  (b.mb.FinishTrajectory b.trajectory_id, [Event.finishTrajectoryCall b.trajectory_id])

/-- SubmapQuery request (cartographer_ros_msgs::SubmapQuery::Request). -/
structure SubmapQueryRequest where
  trajectory_id : Int
  submap_index : Int
deriving DecidableEq, Repr, Inhabited

/-- SubmapQuery response (cartographer_ros_msgs::SubmapQuery::Response). -/
structure SubmapQueryResponse where
  submap_version : Nat
  cells : List Nat
  width : Nat
  height : Nat
  resolution : Int
  slice_pose : GeometryPose
deriving DecidableEq, Repr, Inhabited

/-- Population of the response message from the engine proto (lines 55-62):
every field is set; the cells insert at response.cells.begin() prepends the
proto cells to whatever the response already held. -/
def populateResponse (response_proto : SubmapQueryProto) (response : SubmapQueryResponse) :
    SubmapQueryResponse :=
  { submap_version := response_proto.submap_version,
    cells := response_proto.cells ++ response.cells,
    width := response_proto.width,
    height := response_proto.height,
    resolution := response_proto.resolution,
    slice_pose := ToGeometryMsgPose response_proto.slice_pose }

/-- MapBuilderBridge::HandleSubmapQuery (lines 44-64): ask the engine for the
submap proto; a non-empty error string is logged and reported as failure with
the response untouched; otherwise every response field is populated from the
proto. -/
def BridgeState.HandleSubmapQuery (b : BridgeState) (request : SubmapQueryRequest)
    (response : SubmapQueryResponse) :
    Bool × SubmapQueryResponse × BridgeState × List Event :=
  let p := b.mb.SubmapToProto request.trajectory_id request.submap_index
  let error := p.1
  let response_proto := p.2
  if error ≠ "" then
    (false, response, b, [Event.submapToProtoCall request.trajectory_id request.submap_index,
                          Event.log .error error])
  else
    (true, populateResponse response_proto response, b,
     [Event.submapToProtoCall request.trajectory_id request.submap_index])

/-- FinishTrajectory request (cartographer_ros_msgs::FinishTrajectory::Request). -/
structure FinishTrajectoryRequest where
  stem : String
deriving DecidableEq, Repr, Inhabited

/-- The sequence of bridge states during HandleFinishTrajectory, one per
executed statement that changes bridge-visible state: initial, after line 72
(trajectory_id_ reassigned to a fresh engine trajectory), after lines 73-74
(sensor_bridge_ rebound), after line 76 (engine finishes the old trajectory),
after line 77 (final optimization replaces pose-graph data).  Lines 79-89 do
not change bridge state. -/
def BridgeState.finishStates (b : BridgeState) (optimized : PoseGraphData) :
    List BridgeState :=
  let previous_trajectory_id := b.trajectory_id
  let p := b.mb.AddTrajectoryBuilder b.expected_sensor_ids
  let s1 : BridgeState := { b with mb := p.2, trajectory_id := p.1 }
  let s2 : BridgeState := { s1 with sensor_bridge_traj := p.1 }
  let s3 : BridgeState := { s2 with mb := s2.mb.FinishTrajectory previous_trajectory_id }
  let s4 : BridgeState := { s3 with mb := { s3.mb with graph := optimized } }
  [b, s1, s2, s3, s4]

/-- MapBuilderBridge::HandleFinishTrajectory (lines 66-90): start a fresh
trajectory and rebind the sensor bridge, then finish the previous trajectory,
run final optimization (whose output pose-graph data is the optimized
argument), and write assets exactly when the optimized node list is non-empty.
Always returns true. -/
def BridgeState.HandleFinishTrajectory (b : BridgeState) (request : FinishTrajectoryRequest)
    (optimized : PoseGraphData) : Bool × BridgeState × List Event :=
  let previous_trajectory_id := b.trajectory_id
  let p := b.mb.AddTrajectoryBuilder b.expected_sensor_ids
  let new_id := p.1
  let mb1 := p.2
  let mb2 := mb1.FinishTrajectory previous_trajectory_id
  let mb3 : MapBuilder := { mb2 with graph := optimized }
  let trajectory_nodes := mb3.graph.trajectoryNodes
  let final : BridgeState :=
    { b with mb := mb3, trajectory_id := new_id, sensor_bridge_traj := new_id }
  (true, final,
   [Event.log .info "Finishing trajectory...",
    Event.addTrajectoryBuilder new_id,
    Event.bindSensorBridge new_id,
    Event.finishTrajectoryCall previous_trajectory_id,
    Event.runFinalOptimization,
    Event.getTrajectoryNodes] ++
   (if trajectory_nodes.isEmpty then
      [Event.log .warning "No data collected and no assets will be written."]
    else
      [Event.log .info "Writing assets...",
       Event.writeAssets trajectory_nodes.length request.stem]) ++
   [Event.log .info "New trajectory started."])

/-- One entry of the submap list message (cartographer_ros_msgs::SubmapEntry). -/
structure SubmapEntry where
  submap_version : Nat
  pose : GeometryPose
deriving DecidableEq, Repr, Inhabited

/-- Per-trajectory group (cartographer_ros_msgs::TrajectorySubmapList). -/
structure TrajectorySubmapList where
  submap : List SubmapEntry
deriving DecidableEq, Repr, Inhabited

/-- Message header: stamp from ros::Time::now(), frame from options. -/
structure Header where
  stamp : Nat
  frame_id : String
deriving DecidableEq, Repr, Inhabited

/-- The full submap list message (cartographer_ros_msgs::SubmapList). -/
structure SubmapList where
  header : Header
  trajectory : List TrajectorySubmapList
deriving DecidableEq, Repr, Inhabited

/-- Inner loop of GetSubmapList (lines 106-113) for one trajectory: one entry
per submap index 0..size-1, version from end_laser_fan_index, pose from the
freshly fetched transform array. -/
def submapEntriesFor (mb : MapBuilder) (trajectory_id : Nat) : List SubmapEntry :=
  (List.range (mb.submapsOf trajectory_id).length).map fun submap_index =>
    { submap_version := ((mb.submapsOf trajectory_id).getD submap_index default).end_laser_fan_index,
      pose := ToGeometryMsgPose
        ((mb.graph.submapTransformsOf trajectory_id).getD submap_index default) }

/-- Outer loop of GetSubmapList over the given trajectory ids: fetch each
trajectory submaps and transforms, abort (none) on the CHECK_EQ length
mismatch of line 103, otherwise collect the per-trajectory groups in order. -/
def collectTrajectories (mb : MapBuilder) : List Nat → Option (List TrajectorySubmapList)
  | [] => some []
  | trajectory_id :: rest =>
    if (mb.graph.submapTransformsOf trajectory_id).length =
        (mb.submapsOf trajectory_id).length then
      match collectTrajectories mb rest with
      | some groups => some ({ submap := submapEntriesFor mb trajectory_id } :: groups)
      | none => none
    else
      none

/-- MapBuilderBridge::GetSubmapList (lines 92-117): one group per trajectory
builder ever created, in creation order; none models the fatal CHECK_EQ abort.
The now argument stands for ros::Time::now(). -/
def BridgeState.GetSubmapList (b : BridgeState) (now : Nat) :
    Option SubmapList × BridgeState × List Event :=
  let groups := collectTrajectories b.mb (List.range b.mb.num_trajectory_builders)
  (groups.map fun g =>
     { header := { stamp := now, frame_id := b.options.map_frame }, trajectory := g },
   b,
   (List.range b.mb.num_trajectory_builders).flatMap fun trajectory_id =>
     [Event.getSubmaps trajectory_id, Event.getSubmapTransforms trajectory_id])

/-- MapBuilderBridge::BuildOccupancyGrid (lines 119-130): fetch all optimized
nodes; with none, return no grid; otherwise delegate to the external
occupancy-grid builder (the rasterize collaborator) on the full node set and
current options. -/
def BridgeState.BuildOccupancyGrid {Grid : Type}
    (rasterize : List TrajectoryNode → NodeOptions → Grid) (b : BridgeState) :
    Option Grid × BridgeState × List Event :=
  let trajectory_nodes := b.mb.graph.trajectoryNodes
  (if trajectory_nodes.isEmpty then none
   else some (rasterize trajectory_nodes b.options),
   b,
   [Event.getTrajectoryNodes])

/-- Number of active sessions owned by the bridge: it owns exactly the current
sensor-bridge binding, and that session is active when the engine still accepts
input on the bound trajectory (it is not finished). -/
def BridgeState.activeSessionCount (b : BridgeState) : Nat :=
  if b.sensor_bridge_traj ∈ b.mb.finished then 0 else 1

/-- Well-formed bridge state: the sensor bridge is bound to the current
trajectory, which the engine has allocated and not finished, and every
finished id was allocated. -/
def BridgeState.WF (b : BridgeState) : Prop :=
  b.sensor_bridge_traj = b.trajectory_id ∧
  b.trajectory_id < b.mb.num_trajectory_builders ∧
  b.trajectory_id ∉ b.mb.finished ∧
  ∀ id ∈ b.mb.finished, id < b.mb.num_trajectory_builders

/-- Whether a trace invokes the asset exporter. -/
def invokesExporter (trace : List Event) : Bool :=
  trace.any fun e =>
    match e with
    | .writeAssets _ _ => true
    | _ => false

/-- Whether a trace emits a warning-level log. -/
def emitsWarning (trace : List Event) : Bool :=
  trace.any fun e =>
    match e with
    | .log .warning _ => true
    | _ => false

/-- Nodes the engine attributes to a given trajectory. -/
def nodesOfTrajectory (nodes : List TrajectoryNode) (trajectory_id : Nat) :
    List TrajectoryNode :=
  nodes.filter fun n => n.node_trajectory_id = trajectory_id

/-- Recognizer for trajectory-creation events. -/
def isAddTrajectoryEvent : Event → Bool
  | .addTrajectoryBuilder _ => true
  | _ => false

/-- Recognizer for ingest-adapter (SensorBridge) rebinding events. -/
def isBindSensorBridgeEvent : Event → Bool
  | .bindSensorBridge _ => true
  | _ => false

/-- Recognizer for engine trajectory-finalization events. -/
def isFinishTrajectoryEvent : Event → Bool
  | .finishTrajectoryCall _ => true
  | _ => false

/-- Failure taxonomy of the submap query (spec section 4.2): NotFound for an
unknown trajectory or out-of-range index, EngineError wrapping any other
failure string the engine reports. -/
inductive QueryFailure
  | notFound
  | engineError (msg : String)
deriving DecidableEq, Repr

/-- Classification of a submap query against the engine state: none means the
query succeeds, otherwise the failure class per the spec taxonomy. -/
def classifySubmapQuery (mb : MapBuilder) (trajectory_id submap_index : Int) :
    Option QueryFailure :=
  if trajectory_id < 0 ∨ (mb.num_trajectory_builders : Int) ≤ trajectory_id then
    some .notFound
  else if submap_index < 0 ∨ ((mb.submapsOf trajectory_id.toNat).length : Int) ≤ submap_index then
    some .notFound
  else if mb.engineFailure trajectory_id.toNat submap_index.toNat ≠ "" then
    some (.engineError (mb.engineFailure trajectory_id.toNat submap_index.toNat))
  else
    none

/-- A concrete engine state for witnesses: two trajectories (id 0 finished with
two submaps and matching transforms, id 1 active and empty), no failures. -/
def sampleMb : MapBuilder :=
  { num_trajectory_builders := 2,
    finished := [0],
    submapsOf := fun t =>
      if t = 0 then [{ end_laser_fan_index := 3 }, { end_laser_fan_index := 7 }] else [],
    graph :=
      { submapTransformsOf := fun t =>
          if t = 0 then
            [{ translation := (1, 0, 0), rotation := (0, 0, 0, 1) },
             { translation := (2, 0, 0), rotation := (0, 0, 0, 1) }]
          else [],
        trajectoryNodes := [] },
    engineFailure := fun _ _ => "",
    submapProto := fun _ _ => default }

/-- A concrete well-formed bridge over sampleMb, current trajectory 1. -/
def sampleBridge : BridgeState :=
  { options := { map_frame := "map" },
    expected_sensor_ids := ["scan"],
    mb := sampleMb,
    trajectory_id := 1,
    sensor_bridge_traj := 1 }

/-- Optimizer output in which every node belongs to trajectory 0: used to
exercise a finish of trajectory 1 while older nodes exist. -/
def crossTrajectoryGraph : PoseGraphData :=
  { submapTransformsOf := fun _ => [],
    trajectoryNodes := [{ node_trajectory_id := 0, pose := default }] }

/-- Optimizer output with no nodes at all. -/
def emptyGraph : PoseGraphData :=
  { submapTransformsOf := fun _ => [], trajectoryNodes := [] }

/-- An engine state whose transform array for trajectory 0 is shorter than its
submap list: the CHECK_EQ mismatch scenario. -/
def mismatchMb : MapBuilder :=
  { sampleMb with
    graph := { submapTransformsOf := fun _ => [], trajectoryNodes := [] } }

/-- Bridge over mismatchMb. -/
def mismatchBridge : BridgeState :=
  { sampleBridge with mb := mismatchMb }

/-! ## Theorems -/

/-- C10: HandleFinishTrajectory reports success (returns true) for every
request stem, bridge state and optimizer output; no path returns failure. -/
theorem handleFinishTrajectory_always_returns_true (b : BridgeState)
    (request : FinishTrajectoryRequest) (optimized : PoseGraphData) :
    (b.HandleFinishTrajectory request optimized).1 = true := rfl

/-- C8: the destructor issues exactly one engine call, FinishTrajectory on the
current trajectory handle, so for every bridge state at teardown the engine has
finalized the active trajectory before the bridge is gone. -/
theorem destructor_finalizes_current_trajectory (b : BridgeState) :
    b.destruct.2 = [Event.finishTrajectoryCall b.trajectory_id] ∧
    b.trajectory_id ∈ b.destruct.1.finished :=
  ⟨rfl, List.mem_cons_self _ _⟩

/-- C7: BuildOccupancyGrid returns no grid (none, not an error) exactly when
the engine holds zero optimized trajectory nodes, and otherwise delegates to
the external occupancy-grid builder on the full node set and current options. -/
theorem buildOccupancyGrid_none_iff_no_nodes {Grid : Type}
    (rasterize : List TrajectoryNode → NodeOptions → Grid) (b : BridgeState) :
    (b.BuildOccupancyGrid rasterize).1 =
      (if b.mb.graph.trajectoryNodes.isEmpty then none
       else some (rasterize b.mb.graph.trajectoryNodes b.options)) := rfl

/-- C9: the query operations HandleSubmapQuery, GetSubmapList and
BuildOccupancyGrid return the bridge state unchanged (current trajectory
handle, ingest binding, expected sensor ids all intact) and their traces
contain no state-mutating engine call. -/
theorem queries_are_read_only {Grid : Type}
    (rasterize : List TrajectoryNode → NodeOptions → Grid) (b : BridgeState)
    (request : SubmapQueryRequest) (response : SubmapQueryResponse) (now : Nat) :
    (b.HandleSubmapQuery request response).2.2.1 = b ∧
    (∀ e ∈ (b.HandleSubmapQuery request response).2.2.2, e.mutates = false) ∧
    (b.GetSubmapList now).2.1 = b ∧
    (∀ e ∈ (b.GetSubmapList now).2.2, e.mutates = false) ∧
    (b.BuildOccupancyGrid rasterize).2.1 = b ∧
    (∀ e ∈ (b.BuildOccupancyGrid rasterize).2.2, e.mutates = false) := by
  refine ⟨?_, ?_, rfl, ?_, rfl, ?_⟩
  · by_cases h : (b.mb.SubmapToProto request.trajectory_id request.submap_index).1 ≠ "" <;>
      simp [BridgeState.HandleSubmapQuery, h]
  · intro e he
    by_cases h : (b.mb.SubmapToProto request.trajectory_id request.submap_index).1 ≠ "" <;>
      simp [BridgeState.HandleSubmapQuery, h] at he
    · rcases he with rfl | rfl <;> rfl
    · subst he; rfl
  · intro e he
    simp only [BridgeState.GetSubmapList, List.mem_flatMap, List.mem_cons,
      List.not_mem_nil, or_false] at he
    obtain ⟨t, _, he⟩ := he
    rcases he with rfl | rfl <;> rfl
  · intro e he
    simp only [BridgeState.BuildOccupancyGrid, List.mem_singleton] at he
    subst he; rfl

/-- Witness for C9 at a concrete bridge state, request and rasterizer. -/
theorem queries_are_read_only_witness :
    (sampleBridge.HandleSubmapQuery { trajectory_id := 0, submap_index := 0 }
        default).2.2.1 = sampleBridge ∧
    (sampleBridge.GetSubmapList 7).2.1 = sampleBridge ∧
    (sampleBridge.BuildOccupancyGrid fun _ _ => (0 : Nat)).2.1 = sampleBridge :=
  ⟨(queries_are_read_only (fun _ _ => (0 : Nat)) sampleBridge
      { trajectory_id := 0, submap_index := 0 } default 7).1,
   (queries_are_read_only (fun _ _ => (0 : Nat)) sampleBridge
      { trajectory_id := 0, submap_index := 0 } default 7).2.2.1,
   (queries_are_read_only (fun _ _ => (0 : Nat)) sampleBridge
      { trajectory_id := 0, submap_index := 0 } default 7).2.2.2.2.1⟩

/-- C4: HandleSubmapQuery either succeeds with every response field populated
from the engine proto, or fails; a failing query is classified NotFound
(unknown trajectory or out-of-range index) or EngineError (the engine failure
string), and on failure the boolean is false, the response is exactly the one
passed in (no partial population) and the engine-reported error is logged at
error level. -/
theorem handleSubmapQuery_contract (b : BridgeState) (request : SubmapQueryRequest)
    (response : SubmapQueryResponse) :
    (classifySubmapQuery b.mb request.trajectory_id request.submap_index = none →
      (b.HandleSubmapQuery request response).1 = true ∧
      (b.HandleSubmapQuery request response).2.1 =
        populateResponse
          (b.mb.submapProto request.trajectory_id.toNat request.submap_index.toNat)
          response) ∧
    (∀ f, classifySubmapQuery b.mb request.trajectory_id request.submap_index = some f →
      (b.HandleSubmapQuery request response).1 = false ∧
      (b.HandleSubmapQuery request response).2.1 = response ∧
      (b.HandleSubmapQuery request response).2.2.2 =
        [Event.submapToProtoCall request.trajectory_id request.submap_index,
         Event.log .error
           (b.mb.SubmapToProto request.trajectory_id request.submap_index).1]) := by
  by_cases h1 : request.trajectory_id < 0 ∨
      (b.mb.num_trajectory_builders : Int) ≤ request.trajectory_id
  · have herr : (b.mb.SubmapToProto request.trajectory_id request.submap_index).1 =
        "Requested submap from unknown trajectory." := by
      simp [MapBuilder.SubmapToProto, h1]
    have hne : (b.mb.SubmapToProto request.trajectory_id request.submap_index).1 ≠ "" := by
      rw [herr]; decide
    constructor
    · intro hcls
      simp [classifySubmapQuery, h1] at hcls
    · intro f _
      refine ⟨?_, ?_, ?_⟩ <;> simp [BridgeState.HandleSubmapQuery, hne]
  · by_cases h2 : request.submap_index < 0 ∨
        ((b.mb.submapsOf request.trajectory_id.toNat).length : Int) ≤ request.submap_index
    · have herr : (b.mb.SubmapToProto request.trajectory_id request.submap_index).1 =
          "Requested submap index out of range." := by
        simp [MapBuilder.SubmapToProto, h1, h2]
      have hne : (b.mb.SubmapToProto request.trajectory_id request.submap_index).1 ≠ "" := by
        rw [herr]; decide
      constructor
      · intro hcls
        simp [classifySubmapQuery, h1, h2] at hcls
      · intro f _
        refine ⟨?_, ?_, ?_⟩ <;> simp [BridgeState.HandleSubmapQuery, hne]
    · have hproto : b.mb.SubmapToProto request.trajectory_id request.submap_index =
          (b.mb.engineFailure request.trajectory_id.toNat request.submap_index.toNat,
           b.mb.submapProto request.trajectory_id.toNat request.submap_index.toNat) := by
        simp [MapBuilder.SubmapToProto, h1, h2]
      by_cases h3 : b.mb.engineFailure request.trajectory_id.toNat request.submap_index.toNat = ""
      · constructor
        · intro _
          constructor <;> simp [BridgeState.HandleSubmapQuery, hproto, h3]
        · intro f hcls
          simp [classifySubmapQuery, h1, h2, h3] at hcls
      · constructor
        · intro hcls
          simp [classifySubmapQuery, h1, h2, h3] at hcls
        · intro f _
          refine ⟨?_, ?_, ?_⟩ <;> simp [BridgeState.HandleSubmapQuery, hproto, h3]

/-- Witness for C4: on the sample state, a valid reference (trajectory 0,
submap 0) succeeds and an unknown trajectory (5) fails. -/
theorem handleSubmapQuery_contract_witness :
    (sampleBridge.HandleSubmapQuery
      { trajectory_id := 0, submap_index := 0 } default).1 = true ∧
    (sampleBridge.HandleSubmapQuery
      { trajectory_id := 5, submap_index := 0 } default).1 = false :=
  ⟨((handleSubmapQuery_contract sampleBridge
      { trajectory_id := 0, submap_index := 0 } default).1 (by decide)).1,
   ((handleSubmapQuery_contract sampleBridge
      { trajectory_id := 5, submap_index := 0 } default).2 .notFound (by decide)).1⟩

/-- When every listed trajectory passes the CHECK_EQ length test, the outer
loop returns the per-trajectory groups in listed order. -/
theorem collectTrajectories_eq_some (mb : MapBuilder) (ids : List Nat)
    (h : ∀ t ∈ ids, (mb.graph.submapTransformsOf t).length = (mb.submapsOf t).length) :
    collectTrajectories mb ids =
      some (ids.map fun t => { submap := submapEntriesFor mb t }) := by
  induction ids with
  | nil => rfl
  | cons t ts ih =>
    simp only [collectTrajectories]
    rw [if_pos (h t (List.mem_cons_self t ts)),
      ih fun u hu => h u (List.mem_cons_of_mem t hu)]
    rfl

/-- The outer loop produces a list exactly when every listed trajectory passes
the CHECK_EQ length test. -/
theorem collectTrajectories_isSome_iff (mb : MapBuilder) (ids : List Nat) :
    (collectTrajectories mb ids).isSome = true ↔
      ∀ t ∈ ids, (mb.graph.submapTransformsOf t).length = (mb.submapsOf t).length := by
  induction ids with
  | nil => simp [collectTrajectories]
  | cons t ts ih =>
    simp only [collectTrajectories, List.mem_cons]
    by_cases h : (mb.graph.submapTransformsOf t).length = (mb.submapsOf t).length
    · rw [if_pos h]
      constructor
      · intro hs u hu
        rcases hu with rfl | hu
        · exact h
        · refine ih.mp ?_ u hu
          cases hc : collectTrajectories mb ts with
          | none => rw [hc] at hs; simp at hs
          | some g => rfl
      · intro hall
        cases hc : collectTrajectories mb ts with
        | none =>
          have hsome : (collectTrajectories mb ts).isSome = true :=
            ih.mpr fun u hu => hall u (Or.inr hu)
          rw [hc] at hsome
          simp at hsome
        | some g => rfl
    · rw [if_neg h]
      simp only [Option.isSome_none, Bool.false_eq_true, false_iff, not_forall]
      exact ⟨t, Or.inl rfl, h⟩

/-- C2: GetSubmapList returns a list exactly when, for every trajectory, the
optimizer transform array length equals the submap count (CHECK_EQ line 103);
a mismatch is the fatal abort, modelled none, and whenever a list is returned
it holds one group per trajectory: nothing partial, truncated or padded. -/
theorem getSubmapList_fatal_on_length_mismatch (b : BridgeState) (now : Nat) :
    ((b.GetSubmapList now).1.isSome = true ↔
      ∀ t < b.mb.num_trajectory_builders,
        (b.mb.graph.submapTransformsOf t).length = (b.mb.submapsOf t).length) ∧
    ∀ l, (b.GetSubmapList now).1 = some l →
      l.trajectory = (List.range b.mb.num_trajectory_builders).map
        fun t => { submap := submapEntriesFor b.mb t } := by
  constructor
  · rw [show (b.GetSubmapList now).1.isSome =
        (collectTrajectories b.mb (List.range b.mb.num_trajectory_builders)).isSome from by
      simp [BridgeState.GetSubmapList]]
    rw [collectTrajectories_isSome_iff]
    constructor
    · intro hall t ht
      exact hall t (List.mem_range.mpr ht)
    · intro hall t ht
      exact hall t (List.mem_range.mp ht)
  · intro l hl
    simp only [BridgeState.GetSubmapList, Option.map_eq_some'] at hl
    obtain ⟨g, hg, rfl⟩ := hl
    have hall : ∀ t ∈ List.range b.mb.num_trajectory_builders,
        (b.mb.graph.submapTransformsOf t).length = (b.mb.submapsOf t).length := by
      rw [← collectTrajectories_isSome_iff]
      rw [hg]
      rfl
    rw [collectTrajectories_eq_some b.mb _ hall] at hg
    exact (Option.some.inj hg).symm

/-- Witness for C2: the sample state (matching lengths) yields a list; the
mismatch state (transform array shorter than the submap list) aborts. -/
theorem getSubmapList_fatal_on_length_mismatch_witness :
    (sampleBridge.GetSubmapList 7).1.isSome = true ∧
    (mismatchBridge.GetSubmapList 7).1.isSome = false :=
  ⟨(getSubmapList_fatal_on_length_mismatch sampleBridge 7).1.mpr (by decide),
   by
    have h := (getSubmapList_fatal_on_length_mismatch mismatchBridge 7).1
    cases hs : (mismatchBridge.GetSubmapList 7).1.isSome with
    | false => rfl
    | true => exact absurd (h.mp hs 0 (by decide)) (by decide)⟩

/-- C5: under the CHECK_EQ invariant, GetSubmapList returns one group per
trajectory ever created (0..n-1, creation order, finished ones included), and
each group carries one entry per submap index 0..N-1 in index order. -/
theorem getSubmapList_grouping (b : BridgeState) (now : Nat)
    (h : ∀ t < b.mb.num_trajectory_builders,
      (b.mb.graph.submapTransformsOf t).length = (b.mb.submapsOf t).length) :
    (b.GetSubmapList now).1 =
      some { header := { stamp := now, frame_id := b.options.map_frame },
             trajectory := (List.range b.mb.num_trajectory_builders).map
               fun t => { submap := submapEntriesFor b.mb t } } ∧
    ∀ t < b.mb.num_trajectory_builders,
      (submapEntriesFor b.mb t).length = (b.mb.submapsOf t).length := by
  constructor
  · simp only [BridgeState.GetSubmapList]
    rw [collectTrajectories_eq_some b.mb _ fun t ht => h t (List.mem_range.mp ht)]
    rfl
  · intro t _
    simp [submapEntriesFor]

/-- Witness for C5: the fully evaluated submap list of the sample state. -/
theorem getSubmapList_grouping_witness :
    (sampleBridge.GetSubmapList 7).1 =
      some { header := { stamp := 7, frame_id := "map" },
             trajectory :=
               [{ submap :=
                   [{ submap_version := 3,
                      pose := { position := (1, 0, 0), orientation := (0, 0, 0, 1) } },
                    { submap_version := 7,
                      pose := { position := (2, 0, 0), orientation := (0, 0, 0, 1) } }] },
                { submap := [] }] } := by
  rw [(getSubmapList_grouping sampleBridge 7 (by decide)).1]
  decide

/-- C6: each returned entry has version equal to the submap end_laser_fan_index
recorded by the engine and pose converted from the optimizer transform at the
same index, both read from the current engine state at call time. -/
theorem getSubmapList_entry_version_and_pose (b : BridgeState) (now : Nat)
    (h : ∀ t < b.mb.num_trajectory_builders,
      (b.mb.graph.submapTransformsOf t).length = (b.mb.submapsOf t).length) :
    ∀ L, (b.GetSubmapList now).1 = some L →
      ∀ t, t < b.mb.num_trajectory_builders →
      ∀ i, i < (b.mb.submapsOf t).length →
        (L.trajectory.getD t default).submap.getD i default =
          { submap_version := ((b.mb.submapsOf t).getD i default).end_laser_fan_index,
            pose := ToGeometryMsgPose
              ((b.mb.graph.submapTransformsOf t).getD i default) } := by
  intro L hL t ht i hi
  have hc := collectTrajectories_eq_some b.mb (List.range b.mb.num_trajectory_builders)
    fun u hu => h u (List.mem_range.mp hu)
  simp only [BridgeState.GetSubmapList, hc, Option.map_some'] at hL
  obtain rfl := Option.some.inj hL
  dsimp only
  have h1 : (List.map (fun u => ({ submap := submapEntriesFor b.mb u } : TrajectorySubmapList))
      (List.range b.mb.num_trajectory_builders)).getD t default =
      { submap := submapEntriesFor b.mb t } := by
    rw [List.getD_eq_getElem?_getD, List.getElem?_map, List.getElem?_range ht]
    rfl
  rw [h1]
  show (submapEntriesFor b.mb t).getD i default = _
  simp only [submapEntriesFor]
  rw [List.getD_eq_getElem?_getD, List.getElem?_map, List.getElem?_range hi]
  rfl

/-- Witness for C6: entry 1 of trajectory 0 in the sample state carries version
7 (its end_laser_fan_index) and the converted second optimizer transform. -/
theorem getSubmapList_entry_version_and_pose_witness :
    (({ header := { stamp := 7, frame_id := "map" },
        trajectory :=
          [{ submap :=
              [{ submap_version := 3,
                 pose := { position := (1, 0, 0), orientation := (0, 0, 0, 1) } },
               { submap_version := 7,
                 pose := { position := (2, 0, 0), orientation := (0, 0, 0, 1) } }] },
           { submap := [] }] } : SubmapList).trajectory.getD 0 default).submap.getD 1
        default =
      { submap_version := 7,
        pose := { position := (2, 0, 0), orientation := (0, 0, 0, 1) } } := by
  have := getSubmapList_entry_version_and_pose sampleBridge 7 (by decide)
    { header := { stamp := 7, frame_id := "map" },
      trajectory :=
        [{ submap :=
            [{ submap_version := 3,
               pose := { position := (1, 0, 0), orientation := (0, 0, 0, 1) } },
             { submap_version := 7,
               pose := { position := (2, 0, 0), orientation := (0, 0, 0, 1) } }] },
         { submap := [] }] }
    (by decide) 0 (by decide) 1 (by decide)
  exact this.trans (by decide)

/-- C1: during HandleFinishTrajectory the new trajectory is allocated (trace
index 1) and the ingest adapter rebound (index 2) strictly before the engine is
told to finalize the old trajectory (index 3, and that is the only finalize
call in the trace); every intermediate bridge state, including the states
immediately before and after the request, has exactly one active session. -/
theorem finish_handoff_installs_new_session_first (b : BridgeState)
    (request : FinishTrajectoryRequest) (optimized : PoseGraphData) (hwf : b.WF) :
    (∀ s ∈ b.finishStates optimized, s.activeSessionCount = 1) ∧
    (b.HandleFinishTrajectory request optimized).2.1.activeSessionCount = 1 ∧
    (b.HandleFinishTrajectory request optimized).2.2[1]? =
      some (Event.addTrajectoryBuilder b.mb.num_trajectory_builders) ∧
    (b.HandleFinishTrajectory request optimized).2.2[2]? =
      some (Event.bindSensorBridge b.mb.num_trajectory_builders) ∧
    (b.HandleFinishTrajectory request optimized).2.2[3]? =
      some (Event.finishTrajectoryCall b.trajectory_id) ∧
    (b.HandleFinishTrajectory request optimized).2.2.filter isFinishTrajectoryEvent =
      [Event.finishTrajectoryCall b.trajectory_id] := by
  obtain ⟨hbind, hlt, hnotfin, hfinlt⟩ := hwf
  have hnum : b.mb.num_trajectory_builders ∉ b.mb.finished := fun hmem =>
    absurd (hfinlt _ hmem) (lt_irrefl _)
  have hneq : ¬b.mb.num_trajectory_builders = b.trajectory_id := fun hmem =>
    absurd hlt (hmem ▸ lt_irrefl _)
  refine ⟨?_, ?_, rfl, rfl, rfl, ?_⟩
  · intro s hs
    simp only [BridgeState.finishStates, MapBuilder.AddTrajectoryBuilder,
      MapBuilder.FinishTrajectory, List.mem_cons, List.not_mem_nil, or_false] at hs
    rcases hs with rfl | rfl | rfl | rfl | rfl <;>
      simp [BridgeState.activeSessionCount, hbind, hnotfin, hnum, hneq, List.mem_cons]
  · simp [BridgeState.HandleFinishTrajectory, BridgeState.activeSessionCount,
      MapBuilder.AddTrajectoryBuilder, MapBuilder.FinishTrajectory, hnum, hneq,
      List.mem_cons]
  · cases hn : optimized.trajectoryNodes.isEmpty <;>
      simp [BridgeState.HandleFinishTrajectory, hn, isFinishTrajectoryEvent,
        List.filter_append]

/-- Witness for C1 on the sample well-formed bridge: one active session after
the handoff and the finalize call for old trajectory 1 sits at index 3. -/
theorem finish_handoff_installs_new_session_first_witness :
    (sampleBridge.HandleFinishTrajectory { stem := "map1" } emptyGraph).2.1.activeSessionCount
        = 1 ∧
    (sampleBridge.HandleFinishTrajectory { stem := "map1" } emptyGraph).2.2[3]? =
      some (Event.finishTrajectoryCall 1) :=
  ⟨(finish_handoff_installs_new_session_first sampleBridge { stem := "map1" } emptyGraph
      (by constructor <;> simp [sampleBridge, sampleMb]  )).2.1,
   (finish_handoff_installs_new_session_first sampleBridge { stem := "map1" } emptyGraph
      (by constructor <;> simp [sampleBridge, sampleMb])).2.2.2.2.1⟩

/-- C3 counterexample: finishing trajectory 1 while the pose graph holds one
node attributed to trajectory 0 invokes the exporter even though the
just-finished trajectory produced zero nodes, refuting the claimed iff. -/
theorem finish_export_old_trajectory_cex :
    invokesExporter (sampleBridge.HandleFinishTrajectory { stem := "map1" }
      crossTrajectoryGraph).2.2 = true ∧
    nodesOfTrajectory crossTrajectoryGraph.trajectoryNodes sampleBridge.trajectory_id
      = [] := by
  constructor <;> decide

/-- C3 amended: HandleFinishTrajectory invokes the asset exporter iff the
engine-wide optimized node list (across all trajectories) is non-empty; with
zero nodes export is skipped and a warning is logged; either way the handoff
completes, returning true with the fresh trajectory installed and bound. -/
theorem finish_export_iff_engine_has_nodes (b : BridgeState)
    (request : FinishTrajectoryRequest) (optimized : PoseGraphData) :
    invokesExporter (b.HandleFinishTrajectory request optimized).2.2 =
      !optimized.trajectoryNodes.isEmpty ∧
    (optimized.trajectoryNodes.isEmpty = true →
      emitsWarning (b.HandleFinishTrajectory request optimized).2.2 = true) ∧
    (optimized.trajectoryNodes.isEmpty = false →
      Event.writeAssets optimized.trajectoryNodes.length request.stem ∈
          (b.HandleFinishTrajectory request optimized).2.2 ∧
      emitsWarning (b.HandleFinishTrajectory request optimized).2.2 = false) ∧
    (b.HandleFinishTrajectory request optimized).1 = true ∧
    (b.HandleFinishTrajectory request optimized).2.1.trajectory_id =
      b.mb.num_trajectory_builders ∧
    (b.HandleFinishTrajectory request optimized).2.1.sensor_bridge_traj =
      b.mb.num_trajectory_builders := by
  cases hn : optimized.trajectoryNodes.isEmpty <;>
    simp [BridgeState.HandleFinishTrajectory, MapBuilder.AddTrajectoryBuilder,
      invokesExporter, emitsWarning, hn, List.any_append, List.mem_append]

/-- Witness for C3 amended: with an empty optimized node list the sample finish
logs a warning and skips the exporter. -/
theorem finish_export_iff_engine_has_nodes_witness :
    emitsWarning (sampleBridge.HandleFinishTrajectory { stem := "m" }
      emptyGraph).2.2 = true ∧
    invokesExporter (sampleBridge.HandleFinishTrajectory { stem := "m" }
      emptyGraph).2.2 = false := by
  refine ⟨(finish_export_iff_engine_has_nodes sampleBridge { stem := "m" }
    emptyGraph).2.1 (by decide), ?_⟩
  have h := (finish_export_iff_engine_has_nodes sampleBridge { stem := "m" } emptyGraph).1
  rw [h]
  decide

end CartographerRos
